import Mathlib

/-!
Shallow embedding of the GiveHub smart-contract suite
(contracts/campaign, contracts/donation, contracts/verification).

Conventions of the embedding:
* `BytesN<32>` identifiers and `Address` principals are modelled as `Nat`
  (both are opaque identities compared only for equality in the source).
* `i128` amounts are modelled as `Int` (the host aborts on overflow, so no
  wrapclass arithmetic is observable in a committed transaction).
* A Soroban `panic_with_error!` aborts the whole transaction, leaving
  persistent storage untouched; an operation is therefore embedded as an
  `Except` computation, and the "panic leaves state unchanged" semantics is
  made explicit by `apply_op` style wrappers that keep the prior state on
  `.error`.
* `require_auth()` on a principal is modelled by passing the set (list) of
  principals whose authorization proof is present in the invocation, and
  failing with `Err.auth` when the required principal is not in it.
-/

namespace GiveHub

/-- Campaign status enum of contracts/campaign (`CampaignStatus`). -/
inductive CampaignStatus where
  | Draft
  | Active
  | Funded
  | Completed
  | Cancelled
deriving DecidableEq, Repr

/-- Error enum of contracts/campaign (`CampaignError`). -/
inductive CampaignError where
  | CampaignNotFound
  | InvalidTarget
  | NotDraft
  | NotActive
  | Unauthorized
  | InsufficientFunds
deriving DecidableEq, Repr

/-- Error enum of contracts/donation (`DonationError`). -/
inductive DonationError where
  | CampaignInactive
  | InvalidAmount
  | Unauthorized
deriving DecidableEq, Repr

/-- Error enum of contracts/verification (`VerificationError`). -/
inductive VerificationError where
  | InvalidAmount
  | MilestoneNotFound
  | MilestoneNotPending
  | MilestoneNotVerified
  | Unauthorized
  | NotConfigured
deriving DecidableEq, Repr

/-- Unified abort reason for an embedded invocation: a failed
`require_auth()` for a principal, or a typed contract error from one of the
three contracts. -/
inductive Err where
  | auth (principal : Nat)
  | camp (e : CampaignError)
  | don (e : DonationError)
  | ver (e : VerificationError)
deriving DecidableEq, Repr

instance {ε α : Type} [DecidableEq ε] [DecidableEq α] : DecidableEq (Except ε α) :=
  fun a b =>
    match a, b with
    | .ok x, .ok y =>
        if h : x = y then isTrue (by rw [h])
        else isFalse (by intro hh; cases hh; exact h rfl)
    | .error x, .error y =>
        if h : x = y then isTrue (by rw [h])
        else isFalse (by intro hh; cases hh; exact h rfl)
    | .ok _, .error _ => isFalse (by intro hh; cases hh)
    | .error _, .ok _ => isFalse (by intro hh; cases hh)

/-- The `Campaign` record of contracts/campaign. -/
structure Campaign where
  id : Nat
  title : String
  description : String
  target_amount : Int
  current_amount : Int
  released_amount : Int
  creator : Nat
  status : CampaignStatus
  created_at : Nat
deriving DecidableEq, Repr

/-- `CampaignContract::initialize` (auth check, `InvalidTarget` on
non-positive target, fresh record in `Draft` with zero accumulators).
The storage write is modelled separately by `init_campaign_store`. -/
def init_campaign (auths : List Nat) (creator campaign_id : Nat)
    (title description : String) (target_amount : Int) (now : Nat) :
    Except Err Campaign :=
  if creator ∉ auths then .error (.auth creator)
  else if target_amount ≤ 0 then .error (.camp .InvalidTarget)
  else .ok
    { id := campaign_id
      title := title
      description := description
      target_amount := target_amount
      current_amount := 0
      released_amount := 0
      creator := creator
      status := CampaignStatus.Draft
      created_at := now }

/-- Persistent storage of the campaign contract, keyed by campaign id.
Modelled as an association list where a `set` prepends, so `lookup` sees the
most recent write (the overwrite semantics of `storage().persistent().set`). -/
abbrev CStore : Type := List (Nat × Campaign)

/-- `storage().persistent().get(campaign_id)`. -/
def cstore_get (s : CStore) (k : Nat) : Option Campaign :=
  List.lookup k s

/-- `storage().persistent().set(campaign_id, campaign)`. -/
def cstore_set (s : CStore) (k : Nat) (c : Campaign) : CStore :=
  (k, c) :: s

/-- `CampaignContract::initialize` at storage level. Faithful to the source:
the record is written unconditionally, with no existence check on
`campaign_id` before the write. -/
def init_campaign_store (auths : List Nat) (store : CStore)
    (creator campaign_id : Nat) (title description : String)
    (target_amount : Int) (now : Nat) : Except Err (CStore × Campaign) :=
  match init_campaign auths creator campaign_id title description target_amount now with
  | .error e => .error e
  | .ok c => .ok (cstore_set store campaign_id c, c)

/-- `CampaignContract::activate`, acting on the stored record it looks up. -/
def activate (auths : List Nat) (creator : Nat) (c : Campaign) :
    Except Err Campaign :=
  if creator ∉ auths then .error (.auth creator)
  else if c.creator ≠ creator then .error (.camp .Unauthorized)
  else if c.status ≠ CampaignStatus.Draft then .error (.camp .NotDraft)
  else .ok { c with status := CampaignStatus.Active }

/-- `CampaignContract::add_donation`, acting on the stored record it looks
up. Note the source performs no sign check on `amount` and no caller
authorization check. -/
def add_donation (c : Campaign) (amount : Int) : Except Err Campaign :=
  if c.status ≠ CampaignStatus.Active ∧ c.status ≠ CampaignStatus.Funded then
    .error (.camp .NotActive)
  else
    let c1 := { c with current_amount := c.current_amount + amount }
    if c1.current_amount ≥ c1.target_amount ∧ c1.status = CampaignStatus.Active then
      .ok { c1 with status := CampaignStatus.Funded }
    else
      .ok c1

/-- `CampaignContract::mark_milestone_completed`, acting on the stored
record it looks up. Note the source performs no campaign-status check and no
caller authorization check. -/
def mark_milestone_completed (c : Campaign) (amount : Int) : Except Err Campaign :=
  let available := c.current_amount - c.released_amount
  if available < amount then .error (.camp .InsufficientFunds)
  else
    let c1 := { c with released_amount := c.released_amount + amount }
    if c1.released_amount ≥ c1.target_amount then
      .ok { c1 with status := CampaignStatus.Completed }
    else
      .ok c1

/-- `CampaignContract::cancel`, acting on the stored record it looks up. -/
def cancel (auths : List Nat) (creator : Nat) (c : Campaign) :
    Except Err Campaign :=
  if creator ∉ auths then .error (.auth creator)
  else if c.creator ≠ creator then .error (.camp .Unauthorized)
  else .ok { c with status := CampaignStatus.Cancelled }

/-- One mutating entry point of the campaign contract applied to one stored
campaign record (`initialize` creates the record and is treated separately). -/
inductive COp where
  | activate (auths : List Nat) (creator : Nat)
  | add_donation (amount : Int)
  | mark_milestone_completed (amount : Int)
  | cancel (auths : List Nat) (creator : Nat)
deriving DecidableEq, Repr

/-- Dispatch one campaign entry point on the stored record. -/
def step (c : Campaign) : COp → Except Err Campaign
  | .activate auths creator => activate auths creator c
  | .add_donation amount => add_donation c amount
  | .mark_milestone_completed amount => mark_milestone_completed c amount
  | .cancel auths creator => cancel auths creator c

/-- Transaction semantics of one call: a panic aborts the transaction and
the stored record keeps its prior value; a success commits the new record. -/
def apply_op (c : Campaign) (op : COp) : Campaign :=
  match step c op with
  | .ok c' => c'
  | .error _ => c

/-- A finite sequence of calls on one stored campaign record. -/
def run_ops (c : Campaign) (ops : List COp) : Campaign :=
  ops.foldl apply_op c

/-- The escrow safety predicate of the spec:
`0 ≤ released_amount ≤ current_amount`. -/
def escrow_inv (c : Campaign) : Prop :=
  0 ≤ c.released_amount ∧ c.released_amount ≤ c.current_amount

instance (c : Campaign) : Decidable (escrow_inv c) := by
  unfold escrow_inv; infer_instance

/-- Amounts carried by a call are positive (the spec's validity condition on
donation and release amounts); pure status transitions carry none. -/
def op_amount_pos : COp → Bool
  | .add_donation amount => decide (0 < amount)
  | .mark_milestone_completed amount => decide (0 < amount)
  | .activate _ _ => true
  | .cancel _ _ => true

/-- Whether an embedded invocation committed. -/
def is_ok {α : Type} : Except Err α → Bool
  | .ok _ => true
  | .error _ => false

lemma escrow_inv_apply (c : Campaign) (op : COp) (h : escrow_inv c)
    (hpos : op_amount_pos op = true) : escrow_inv (apply_op c op) := by
  obtain ⟨h0, h1⟩ := h
  cases op with
  | activate auths creator =>
      simp only [apply_op, step, activate]
      split_ifs <;> exact ⟨h0, h1⟩
  | cancel auths creator =>
      simp only [apply_op, step, cancel]
      split_ifs <;> exact ⟨h0, h1⟩
  | add_donation amount =>
      simp only [op_amount_pos, decide_eq_true_eq] at hpos
      simp only [apply_op, step, add_donation]
      split_ifs with hg hflip
      · exact ⟨h0, h1⟩
      · refine ⟨h0, ?_⟩
        show c.released_amount ≤ c.current_amount + amount
        omega
      · refine ⟨h0, ?_⟩
        show c.released_amount ≤ c.current_amount + amount
        omega
  | mark_milestone_completed amount =>
      simp only [op_amount_pos, decide_eq_true_eq] at hpos
      simp only [apply_op, step, mark_milestone_completed]
      split_ifs with havail hflip
      · exact ⟨h0, h1⟩
      · constructor
        · show (0 : Int) ≤ c.released_amount + amount
          omega
        · show c.released_amount + amount ≤ c.current_amount
          omega
      · constructor
        · show (0 : Int) ≤ c.released_amount + amount
          omega
        · show c.released_amount + amount ≤ c.current_amount
          omega

lemma escrow_inv_run (c : Campaign) (ops : List COp) (h : escrow_inv c)
    (hpos : ∀ op ∈ ops, op_amount_pos op = true) :
    escrow_inv (run_ops c ops) := by
  induction ops generalizing c with
  | nil => simpa [run_ops] using h
  | cons op rest ih =>
      have h' := escrow_inv_apply c op h (hpos op (List.mem_cons_self op rest))
      have hrest : ∀ o ∈ rest, op_amount_pos o = true :=
        fun o ho => hpos o (List.mem_cons_of_mem op ho)
      simpa [run_ops, List.foldl_cons] using ih (apply_op c op) h' hrest

/-- Claim C1 (amended): for a freshly initialized campaign (and any campaign
record satisfying the escrow predicate), after every successful prefix of a
finite sequence of `activate` / `cancel` / `add_donation` /
`mark_milestone_completed` calls in which every donation and release amount
is positive, `0 ≤ released_amount ≤ current_amount` holds. -/
theorem c1_escrow_invariant :
    (∀ (auths : List Nat) (creator campaign_id : Nat) (title description : String)
        (target_amount : Int) (now : Nat) (c0 : Campaign),
        init_campaign auths creator campaign_id title description target_amount now = .ok c0 →
        escrow_inv c0) ∧
    (∀ (c : Campaign) (ops : List COp), escrow_inv c →
        (∀ op ∈ ops, op_amount_pos op = true) →
        ∀ n : Nat, escrow_inv (run_ops c (ops.take n))) := by
  constructor
  · intro auths creator campaign_id title description target_amount now c0 hinit
    unfold init_campaign at hinit
    split_ifs at hinit
    cases hinit
    exact ⟨le_refl 0, le_refl 0⟩
  · intro c ops hinv hpos n
    exact escrow_inv_run c (ops.take n) hinv
      (fun op hop => hpos op (List.take_subset n ops hop))

/-- Witness for C1: a concrete activated campaign and a concrete
positive-amount call sequence for which the theorem yields the invariant. -/
theorem c1_escrow_invariant_witness :
    escrow_inv (run_ops
      { id := 1, title := "t", description := "d", target_amount := 1000,
        current_amount := 0, released_amount := 0, creator := 7,
        status := CampaignStatus.Active, created_at := 0 }
      [COp.add_donation 100, COp.mark_milestone_completed 50]) :=
  c1_escrow_invariant.2
    { id := 1, title := "t", description := "d", target_amount := 1000,
      current_amount := 0, released_amount := 0, creator := 7,
      status := CampaignStatus.Active, created_at := 0 }
    [COp.add_donation 100, COp.mark_milestone_completed 50]
    (by decide) (by decide) 2

/-- The campaign produced by a concrete `initialize` call, used to refute
claim C1 as literally stated. -/
def c1_cex_campaign : Campaign :=
  { id := 1, title := "t", description := "d", target_amount := 1000,
    current_amount := 0, released_amount := 0, creator := 7,
    status := CampaignStatus.Draft, created_at := 0 }

/-- Counterexample to claim C1 as stated: on a freshly initialized campaign
a single successful `mark_milestone_completed` call with amount `-5` (the
source has no positivity check, so `available < amount` is false) drives
`released_amount` to `-5`, violating `0 ≤ released_amount ≤ current_amount`
right after a successful call. -/
theorem c1_counterexample :
    init_campaign [7] 7 1 "t" "d" 1000 0 = .ok c1_cex_campaign ∧
    is_ok (step c1_cex_campaign (COp.mark_milestone_completed (-5))) = true ∧
    ¬ escrow_inv (run_ops c1_cex_campaign [COp.mark_milestone_completed (-5)]) := by
  refine ⟨by decide, by decide, ?_⟩
  decide

/-- Claim C2: whenever `amount > current_amount - released_amount`,
`mark_milestone_completed` aborts with `InsufficientFunds` and the stored
campaign record keeps its prior `current_amount`, `released_amount` and
`status` (the whole record is unchanged). -/
theorem c2_insufficient_funds (c : Campaign) (amount : Int)
    (h : c.current_amount - c.released_amount < amount) :
    mark_milestone_completed c amount = .error (.camp .InsufficientFunds) ∧
    apply_op c (COp.mark_milestone_completed amount) = c := by
  have hm : mark_milestone_completed c amount = .error (.camp .InsufficientFunds) := by
    unfold mark_milestone_completed
    simp only [if_pos h]
  refine ⟨hm, ?_⟩
  simp only [apply_op, step]
  rw [hm]

lemma add_donation_ok (c : Campaign) (amount : Int)
    (h : c.status = CampaignStatus.Active ∨ c.status = CampaignStatus.Funded) :
    is_ok (add_donation c amount) = true ∧
    add_donation c amount = .ok (apply_op c (COp.add_donation amount)) ∧
    (apply_op c (COp.add_donation amount)).current_amount = c.current_amount + amount ∧
    ((apply_op c (COp.add_donation amount)).status = CampaignStatus.Funded ↔
      (c.status = CampaignStatus.Funded ∨
        (c.status = CampaignStatus.Active ∧ c.target_amount ≤ c.current_amount + amount))) ∧
    ((apply_op c (COp.add_donation amount)).status = CampaignStatus.Active ∨
      (apply_op c (COp.add_donation amount)).status = CampaignStatus.Funded) := by
  have hg : ¬ (c.status ≠ CampaignStatus.Active ∧ c.status ≠ CampaignStatus.Funded) := by
    rcases h with h | h <;> simp [h]
  simp only [apply_op, step, add_donation, ge_iff_le, if_neg hg]
  split_ifs with hf
  · refine ⟨rfl, rfl, rfl, ?_, Or.inr rfl⟩
    exact ⟨fun _ => Or.inr ⟨hf.2, hf.1⟩, fun _ => rfl⟩
  · refine ⟨rfl, rfl, rfl, ?_, h⟩
    constructor
    · exact Or.inl
    · rintro (hfu | ⟨hA, hT⟩)
      · exact hfu
      · exact absurd ⟨hT, hA⟩ hf

/-- Claim C4: on a fundable campaign (`Active` or `Funded`), `add_donation`
succeeds, adds `amount` to `current_amount`, and the result is `Funded`
exactly when the updated `current_amount` reaches or exceeds `target_amount`
while the status was `Active`, or the campaign already was `Funded`; an
already `Funded` campaign keeps accepting donations and stays `Funded`,
never reverting to `Active`. -/
theorem c4_funded_transition (c : Campaign) (amount : Int)
    (h : c.status = CampaignStatus.Active ∨ c.status = CampaignStatus.Funded) :
    is_ok (add_donation c amount) = true ∧
    (apply_op c (COp.add_donation amount)).current_amount = c.current_amount + amount ∧
    ((apply_op c (COp.add_donation amount)).status = CampaignStatus.Funded ↔
      (c.status = CampaignStatus.Funded ∨
        (c.status = CampaignStatus.Active ∧ c.target_amount ≤ c.current_amount + amount))) ∧
    (c.status = CampaignStatus.Funded →
      (apply_op c (COp.add_donation amount)).status = CampaignStatus.Funded) := by
  obtain ⟨h1, _, h3, h4, _⟩ := add_donation_ok c amount h
  exact ⟨h1, h3, h4, fun hf => h4.mpr (Or.inl hf)⟩

/-- Campaign used by the C4 witness. -/
def c4w : Campaign :=
  { id := 4, title := "t", description := "d", target_amount := 1000,
    current_amount := 600, released_amount := 0, creator := 7,
    status := CampaignStatus.Active, created_at := 0 }

/-- Witness for C4: a 500 donation on an `Active` campaign at 600 of 1000
succeeds and flips the status to `Funded`. -/
theorem c4_funded_transition_witness :
    is_ok (add_donation c4w 500) = true ∧
    (apply_op c4w (COp.add_donation 500)).current_amount = 1100 ∧
    (apply_op c4w (COp.add_donation 500)).status = CampaignStatus.Funded := by
  obtain ⟨h1, h2, h3, _⟩ := c4_funded_transition c4w 500 (Or.inl rfl)
  exact ⟨h1, h2.trans (by decide), h3.mpr (Or.inr ⟨rfl, by decide⟩)⟩

/-- Claim C5: a successful campaign-ledger call yields a `Completed` status
exactly when the call is `mark_milestone_completed` and the updated
`released_amount` reaches or exceeds `target_amount`; `add_donation`,
`activate` and `cancel` never produce a `Completed` record, and `initialize`
always produces a `Draft` one, so `Completed` is reachable only through
milestone releases. -/
theorem c5_completed_only_via_release :
    (∀ (c : Campaign) (op : COp) (c' : Campaign),
        c.status ≠ CampaignStatus.Completed → step c op = .ok c' →
        (c'.status = CampaignStatus.Completed ↔
          ∃ amount, op = COp.mark_milestone_completed amount ∧
            c.target_amount ≤ c.released_amount + amount)) ∧
    (∀ (auths : List Nat) (creator campaign_id : Nat) (title description : String)
        (target_amount : Int) (now : Nat) (c0 : Campaign),
        init_campaign auths creator campaign_id title description target_amount now = .ok c0 →
        c0.status = CampaignStatus.Draft) := by
  constructor
  · intro c op c' hne hok
    cases op with
    | activate auths creator =>
        simp only [step, activate] at hok
        split_ifs at hok
        cases hok
        simp
    | cancel auths creator =>
        simp only [step, cancel] at hok
        split_ifs at hok
        cases hok
        simp
    | add_donation amount =>
        simp only [step, add_donation, ge_iff_le] at hok
        split_ifs at hok with hg hf
        · cases hok
          simp
        · cases hok
          simp [hne]
    | mark_milestone_completed amount =>
        simp only [step, mark_milestone_completed, ge_iff_le] at hok
        split_ifs at hok with ha hf
        · cases hok
          exact ⟨fun _ => ⟨amount, rfl, hf⟩, fun _ => rfl⟩
        · cases hok
          constructor
          · intro hcs
            exact absurd hcs hne
          · rintro ⟨a, heq, hta⟩
            cases heq
            exact absurd hta hf
  · intro auths creator campaign_id title description target_amount now c0 hinit
    unfold init_campaign at hinit
    split_ifs at hinit
    cases hinit
    rfl

/-- Campaign used by the C5 witness. -/
def c5w : Campaign :=
  { id := 5, title := "t", description := "d", target_amount := 1000,
    current_amount := 1100, released_amount := 600, creator := 7,
    status := CampaignStatus.Funded, created_at := 0 }

/-- Witness for C5: releasing 400 on a `Funded` campaign with 600 of 1000
already released makes the status `Completed`. -/
theorem c5_completed_only_via_release_witness :
    (apply_op c5w (COp.mark_milestone_completed 400)).status = CampaignStatus.Completed :=
  (c5_completed_only_via_release.1 c5w (COp.mark_milestone_completed 400)
      (apply_op c5w (COp.mark_milestone_completed 400)) (by decide) (by decide)).mpr
    ⟨400, rfl, by decide⟩

/-- Claim C9 (implicit): `add_donation` performs no positivity check: on a
fundable campaign it succeeds for every amount, including zero and negative
values, and adds the amount to `current_amount`. -/
theorem c9_negative_amount_accepted (c : Campaign) (amount : Int)
    (h : c.status = CampaignStatus.Active ∨ c.status = CampaignStatus.Funded) :
    is_ok (add_donation c amount) = true ∧
    (apply_op c (COp.add_donation amount)).current_amount = c.current_amount + amount := by
  obtain ⟨h1, _, h3, _, _⟩ := add_donation_ok c amount h
  exact ⟨h1, h3⟩

/-- Campaign used by the C9 witness. -/
def c9w : Campaign :=
  { id := 9, title := "t", description := "d", target_amount := 1000,
    current_amount := 100, released_amount := 0, creator := 7,
    status := CampaignStatus.Active, created_at := 0 }

/-- Witness for C9: a donation of `-40` succeeds and decreases
`current_amount` from 100 to 60. -/
theorem c9_negative_amount_accepted_witness :
    is_ok (add_donation c9w (-40)) = true ∧
    (apply_op c9w (COp.add_donation (-40))).current_amount = 60 := by
  obtain ⟨h1, h2⟩ := c9_negative_amount_accepted c9w (-40) (Or.inl rfl)
  exact ⟨h1, h2.trans (by decide)⟩

/-- Claim C10 (implicit): `mark_milestone_completed` performs no
campaign-status check and no caller check: for a stored campaign in any
status, a call with `amount ≤ current_amount - released_amount` succeeds,
adds the amount to `released_amount`, and sets the status to `Completed`
whenever the updated `released_amount` reaches the target. -/
theorem c10_release_ignores_status (c : Campaign) (amount : Int)
    (h : amount ≤ c.current_amount - c.released_amount) :
    is_ok (mark_milestone_completed c amount) = true ∧
    (apply_op c (COp.mark_milestone_completed amount)).released_amount =
      c.released_amount + amount ∧
    (c.target_amount ≤ c.released_amount + amount →
      (apply_op c (COp.mark_milestone_completed amount)).status = CampaignStatus.Completed) := by
  have hng : ¬ (c.current_amount - c.released_amount < amount) := not_lt.mpr h
  simp only [apply_op, step, mark_milestone_completed, ge_iff_le, if_neg hng]
  split_ifs with hflip
  · exact ⟨rfl, rfl, fun _ => rfl⟩
  · exact ⟨rfl, rfl, fun ht => absurd ht hflip⟩

/-- Campaign used by the C10 witness: a `Cancelled` campaign. -/
def c10w : Campaign :=
  { id := 10, title := "t", description := "d", target_amount := 100,
    current_amount := 100, released_amount := 0, creator := 7,
    status := CampaignStatus.Cancelled, created_at := 0 }

/-- Witness for C10: releasing 100 on a `Cancelled` campaign succeeds and
transitions it to `Completed`. -/
theorem c10_release_ignores_status_witness :
    is_ok (mark_milestone_completed c10w 100) = true ∧
    (apply_op c10w (COp.mark_milestone_completed 100)).released_amount = 100 ∧
    (apply_op c10w (COp.mark_milestone_completed 100)).status = CampaignStatus.Completed := by
  obtain ⟨h1, h2, h3⟩ := c10_release_ignores_status c10w 100 (by decide)
  exact ⟨h1, h2.trans (by decide), h3 (by decide)⟩

/-- Pre-existing stored campaign used to exhibit the missing existence
check in `initialize`: it already has nonzero accumulators. -/
def c6_prev : Campaign :=
  { id := 1, title := "old", description := "od", target_amount := 1000,
    current_amount := 500, released_amount := 200, creator := 7,
    status := CampaignStatus.Active, created_at := 3 }

/-- The record a second `initialize` call writes over id 1. -/
def c6_over : Campaign :=
  { id := 1, title := "new", description := "nd", target_amount := 800,
    current_amount := 0, released_amount := 0, creator := 9,
    status := CampaignStatus.Draft, created_at := 5 }

/-- Claim C6, evaluated at the failing input: with a campaign already stored
under id 1 (with 500 donated and 200 released), a second `initialize` call
for id 1 does not fail — the source has no existence check — and it
overwrites the stored record, resetting both accumulators to zero. The auth
and `InvalidTarget` guards of the claim do hold, shown at the same input. -/
theorem c6_no_existence_check :
    cstore_get [(1, c6_prev)] 1 = some c6_prev ∧
    init_campaign_store [9] [(1, c6_prev)] 9 1 "new" "nd" 800 5 =
      .ok (cstore_set [(1, c6_prev)] 1 c6_over, c6_over) ∧
    cstore_get (cstore_set [(1, c6_prev)] 1 c6_over) 1 = some c6_over ∧
    init_campaign_store [] [(1, c6_prev)] 9 1 "new" "nd" 800 5 =
      .error (.auth 9) ∧
    init_campaign_store [9] [(1, c6_prev)] 9 1 "new" "nd" 0 5 =
      .error (.camp .InvalidTarget) := by
  refine ⟨by decide, by decide, by decide, by decide, by decide⟩

/-- Milestone status enum of contracts/verification (`MilestoneStatus`). -/
inductive MilestoneStatus where
  | Pending
  | Verified
  | Completed
  | Failed
deriving DecidableEq, Repr

/-- The `Milestone` record of contracts/verification. -/
structure Milestone where
  description : String
  amount : Int
  status : MilestoneStatus
  verification_docs : List String
  verified_by : Option Nat
  completed_at : Option Nat
deriving DecidableEq, Repr

/-- The `VerificationConfig` record of contracts/verification. -/
structure VerificationConfig where
  campaign_contract : Nat
  owner : Nat
  verifier : Nat
deriving DecidableEq, Repr

/-- Combined persistent state touched by `complete_milestone` for one
campaign id: the verification contract's config record (stored under the
`("cfg", id)` key) and milestone list (stored under the `id` key), plus the
campaign contract's stored record for the same id. -/
structure VWorld where
  config : Option VerificationConfig
  milestones : Option (List Milestone)
  campaign : Campaign
deriving DecidableEq, Repr

/-- `VerificationContract::complete_milestone`: auth check on the verifier,
configured-verifier check, milestone lookup, `MilestoneNotVerified` guard,
then the cross-contract `mark_milestone_completed` call on the campaign
ledger (whose panic aborts the whole invocation), and only after that call
succeeds is the milestone stamped `Completed` with `completed_at` set. -/
def complete_milestone (auths : List Nat) (w : VWorld) (verifier : Nat)
    (milestone_index : Nat) (now : Nat) : Except Err (VWorld × Milestone) :=
  if verifier ∉ auths then .error (.auth verifier)
  else
    match w.config with
    | none => .error (.ver .NotConfigured)
    | some config =>
      if config.verifier ≠ verifier then .error (.ver .Unauthorized)
      else
        match w.milestones with
        | none => .error (.ver .MilestoneNotFound)
        | some milestones =>
          match milestones.get? milestone_index with
          | none => .error (.ver .MilestoneNotFound)
          | some milestone =>
            if milestone.status ≠ MilestoneStatus.Verified then
              .error (.ver .MilestoneNotVerified)
            else
              match mark_milestone_completed w.campaign milestone.amount with
              | .error e => .error e
              | .ok campaign' =>
                let milestone' := { milestone with
                                    status := MilestoneStatus.Completed,
                                    completed_at := some now }
                .ok ({ w with
                        campaign := campaign'
                        milestones := some (milestones.set milestone_index milestone') },
                     milestone')

/-- Transaction semantics of one `complete_milestone` call: on abort every
store keeps its prior contents (the host's atomic-transaction guarantee). -/
def apply_complete (auths : List Nat) (w : VWorld) (verifier : Nat)
    (milestone_index : Nat) (now : Nat) : VWorld × Option Err :=
  match complete_milestone auths w verifier milestone_index now with
  | .ok (w', _) => (w', none)
  | .error e => (w, some e)

/-- Claim C3: for a configured campaign and a `Verified` milestone,
`complete_milestone` stamps the milestone `Completed` with `completed_at`
only when the campaign-ledger release succeeds; when the release fails with
`InsufficientFunds` the whole invocation aborts, every store keeps its prior
contents, and the milestone remains `Verified`. -/
theorem c3_complete_atomicity (auths : List Nat) (w : VWorld) (verifier : Nat)
    (i now : Nat) (cfg : VerificationConfig) (ms : List Milestone) (m : Milestone)
    (hA : verifier ∈ auths) (hcfg : w.config = some cfg) (hv : cfg.verifier = verifier)
    (hms : w.milestones = some ms) (hm : ms.get? i = some m)
    (hst : m.status = MilestoneStatus.Verified) :
    (w.campaign.current_amount - w.campaign.released_amount < m.amount →
        complete_milestone auths w verifier i now = .error (.camp .InsufficientFunds) ∧
        apply_complete auths w verifier i now = (w, some (.camp .InsufficientFunds))) ∧
    (m.amount ≤ w.campaign.current_amount - w.campaign.released_amount →
        complete_milestone auths w verifier i now =
          .ok ({ w with
                  campaign := apply_op w.campaign (COp.mark_milestone_completed m.amount)
                  milestones := some (ms.set i
                    { m with
                       status := MilestoneStatus.Completed
                       completed_at := some now }) },
               { m with
                  status := MilestoneStatus.Completed
                  completed_at := some now })) := by
  have h1 : ¬ (verifier ∉ auths) := fun hn => hn hA
  have h2 : ¬ (cfg.verifier ≠ verifier) := fun hn => hn hv
  have h3 : ¬ (m.status ≠ MilestoneStatus.Verified) := fun hn => hn hst
  constructor
  · intro hlt
    have hmark : mark_milestone_completed w.campaign m.amount =
        .error (.camp .InsufficientFunds) := by
      unfold mark_milestone_completed
      simp only [if_pos hlt]
    have hcm : complete_milestone auths w verifier i now =
        .error (.camp .InsufficientFunds) := by
      simp only [complete_milestone, if_neg h1, hcfg, if_neg h2, hms, hm, if_neg h3, hmark]
    refine ⟨hcm, ?_⟩
    simp only [apply_complete, hcm]
  · intro hle
    have hng : ¬ (w.campaign.current_amount - w.campaign.released_amount < m.amount) :=
      not_lt.mpr hle
    have hmark : mark_milestone_completed w.campaign m.amount =
        .ok (apply_op w.campaign (COp.mark_milestone_completed m.amount)) := by
      simp only [apply_op, step, mark_milestone_completed, if_neg hng]
      split_ifs <;> rfl
    simp only [complete_milestone, if_neg h1, hcfg, if_neg h2, hms, hm, if_neg h3, hmark]

/-- Verification world used by the C3 witness: milestone 0 is `Verified`
with tranche 1200 while the campaign has `available_funds = 1100`. -/
def c3w : VWorld :=
  { config := some { campaign_contract := 50, owner := 7, verifier := 3 },
    milestones := some
      [{ description := "m0", amount := 1200, status := MilestoneStatus.Verified,
         verification_docs := [], verified_by := some 3, completed_at := none }],
    campaign :=
      { id := 1, title := "t", description := "d", target_amount := 2000,
        current_amount := 1100, released_amount := 0, creator := 7,
        status := CampaignStatus.Funded, created_at := 0 } }

/-- Witness for C3: the spec scenario — milestone amount 1200 against
available funds 1100 — aborts with `InsufficientFunds` and leaves the whole
world (hence the `Verified` milestone) unchanged. -/
theorem c3_complete_atomicity_witness :
    complete_milestone [3] c3w 3 0 99 = .error (.camp .InsufficientFunds) ∧
    apply_complete [3] c3w 3 0 99 = (c3w, some (.camp .InsufficientFunds)) :=
  (c3_complete_atomicity [3] c3w 3 0 99
      { campaign_contract := 50, owner := 7, verifier := 3 }
      [{ description := "m0", amount := 1200, status := MilestoneStatus.Verified,
         verification_docs := [], verified_by := some 3, completed_at := none }]
      { description := "m0", amount := 1200, status := MilestoneStatus.Verified,
        verification_docs := [], verified_by := some 3, completed_at := none }
      (by decide) rfl rfl rfl rfl rfl).1 (by decide)

/-- Witness for C2 at a concrete stored campaign: available funds 50,
requested release 60. -/
theorem c2_insufficient_funds_witness :
    mark_milestone_completed
      { id := 2, title := "t", description := "d", target_amount := 1000,
        current_amount := 100, released_amount := 50, creator := 7,
        status := CampaignStatus.Active, created_at := 0 } 60 =
      .error (.camp .InsufficientFunds) ∧
    apply_op
      { id := 2, title := "t", description := "d", target_amount := 1000,
        current_amount := 100, released_amount := 50, creator := 7,
        status := CampaignStatus.Active, created_at := 0 }
      (COp.mark_milestone_completed 60) =
      { id := 2, title := "t", description := "d", target_amount := 1000,
        current_amount := 100, released_amount := 50, creator := 7,
        status := CampaignStatus.Active, created_at := 0 } :=
  c2_insufficient_funds _ 60 (by decide)

/-- Modelled from the spec: the campaign record variant carrying the
registered donation authority. The donation contract reads
`campaign.donation_contract` (registered through the campaign contract's
`set_authorized_contracts` entry point), but that campaign-side declaration
is missing from the provided campaign sources, so the field is modelled
here, per the spec's registered-donation-authority design, alongside the
`Campaign` record the sources do declare. -/
structure CampaignA where
  base : Campaign
  donation_contract : Option Nat
deriving DecidableEq, Repr

/-- `add_donation` lifted to the authority-carrying campaign record: the
mutator touches only the accounting fields of the base record. -/
def add_donationA (c : CampaignA) (amount : Int) : Except Err CampaignA :=
  match add_donation c.base amount with
  | .error e => .error e
  | .ok base' => .ok { c with base := base' }

/-- The `Donation` record of contracts/donation. -/
structure Donation where
  campaign_id : Nat
  donor : Nat
  amount : Int
  timestamp : Nat
  note : Option String
deriving DecidableEq, Repr

/-- Combined state seen by the donation contract: its own contract address,
the campaign contract's records, and its persistent per-campaign map of
per-donor donation lists. The source's `Map`/`Vec` reads that default a
missing key to an empty container are modelled by total functions
defaulting to `[]`. -/
structure DWorld where
  self_addr : Nat
  campaigns : Nat → Option CampaignA
  donations : Nat → Nat → List Donation

/-- `DonationContract::donate`: donor auth, `InvalidAmount` on non-positive
amount, campaign read, registered-authority check (`Unauthorized`),
fundable-status check (`CampaignInactive`), append of the donation record to
the per-(campaign, donor) list, and the cross-contract `add_donation` call. -/
def donate (auths : List Nat) (w : DWorld) (donor campaign_id : Nat)
    (amount : Int) (note : Option String) (now : Nat) :
    Except Err (DWorld × Donation) :=
  if donor ∉ auths then .error (.auth donor)
  else if amount ≤ 0 then .error (.don .InvalidAmount)
  else
    match w.campaigns campaign_id with
    | none => .error (.camp .CampaignNotFound)
    | some campaign =>
      if campaign.donation_contract ≠ some w.self_addr then .error (.don .Unauthorized)
      else if campaign.base.status ≠ CampaignStatus.Active ∧
          campaign.base.status ≠ CampaignStatus.Funded then
        .error (.don .CampaignInactive)
      else
        let donation : Donation :=
          { campaign_id := campaign_id, donor := donor, amount := amount,
            timestamp := now, note := note }
        match add_donationA campaign amount with
        | .error e => .error e
        | .ok campaign' =>
          .ok ({ w with
                  campaigns := fun k =>
                    if k = campaign_id then some campaign' else w.campaigns k
                  donations := fun c d =>
                    if c = campaign_id ∧ d = donor then w.donations c d ++ [donation]
                    else w.donations c d },
               donation)

/-- `DonationContract::get_donations`: that donor's list for that campaign,
empty if none. -/
def get_donations (w : DWorld) (campaign_id donor : Nat) : List Donation :=
  w.donations campaign_id donor

/-- Claim C7: `donate` fails with `InvalidAmount` when `amount ≤ 0`; with
`Unauthorized` when this donation-ledger instance is not the campaign's
registered donation authority; and with `CampaignInactive` when the
campaign's status is not fundable (`Active` or `Funded`), the checks being
applied in the source's order. -/
theorem c7_donate_guards (auths : List Nat) (w : DWorld) (donor campaign_id : Nat)
    (amount : Int) (note : Option String) (now : Nat) (camp : CampaignA)
    (hA : donor ∈ auths) (hC : w.campaigns campaign_id = some camp) :
    (amount ≤ 0 →
        donate auths w donor campaign_id amount note now = .error (.don .InvalidAmount)) ∧
    (0 < amount → camp.donation_contract ≠ some w.self_addr →
        donate auths w donor campaign_id amount note now = .error (.don .Unauthorized)) ∧
    (0 < amount → camp.donation_contract = some w.self_addr →
        camp.base.status ≠ CampaignStatus.Active →
        camp.base.status ≠ CampaignStatus.Funded →
        donate auths w donor campaign_id amount note now = .error (.don .CampaignInactive)) := by
  have h1 : ¬ (donor ∉ auths) := fun hn => hn hA
  refine ⟨?_, ?_, ?_⟩
  · intro hle
    simp only [donate, if_neg h1, if_pos hle]
  · intro hpos hreg
    have hgt : ¬ (amount ≤ 0) := not_le.mpr hpos
    simp only [donate, if_neg h1, if_neg hgt, hC, if_pos hreg]
  · intro hpos hreg hna hnf
    have hgt : ¬ (amount ≤ 0) := not_le.mpr hpos
    have hnr : ¬ (camp.donation_contract ≠ some w.self_addr) := fun hn => hn hreg
    simp only [donate, if_neg h1, if_neg hgt, hC, if_neg hnr,
      if_pos (And.intro hna hnf)]

/-- Fundable campaign base used by the C7 witness worlds. -/
def c7base : Campaign :=
  { id := 1, title := "t", description := "d", target_amount := 1000,
    current_amount := 0, released_amount := 0, creator := 7,
    status := CampaignStatus.Active, created_at := 0 }

/-- C7 witness world where this donation ledger (address 5) is registered. -/
def c7wA : DWorld :=
  { self_addr := 5
    campaigns := fun k =>
      if k = 1 then some { base := c7base, donation_contract := some 5 } else none
    donations := fun _ _ => [] }

/-- C7 witness world where another ledger (address 6) is registered. -/
def c7wB : DWorld :=
  { self_addr := 5
    campaigns := fun k =>
      if k = 1 then some { base := c7base, donation_contract := some 6 } else none
    donations := fun _ _ => [] }

/-- C7 witness world with a registered ledger but a `Draft` campaign. -/
def c7wC : DWorld :=
  { self_addr := 5
    campaigns := fun k =>
      if k = 1 then
        some { base := { c7base with status := CampaignStatus.Draft },
               donation_contract := some 5 }
      else none
    donations := fun _ _ => [] }

/-- Witness for C7: the three failure modes at concrete inputs. -/
theorem c7_donate_guards_witness :
    donate [2] c7wA 2 1 0 none 10 = .error (.don .InvalidAmount) ∧
    donate [2] c7wB 2 1 50 none 10 = .error (.don .Unauthorized) ∧
    donate [2] c7wC 2 1 50 none 10 = .error (.don .CampaignInactive) :=
  ⟨(c7_donate_guards [2] c7wA 2 1 0 none 10
      { base := c7base, donation_contract := some 5 } (by decide) rfl).1 (by decide),
   (c7_donate_guards [2] c7wB 2 1 50 none 10
      { base := c7base, donation_contract := some 6 } (by decide) rfl).2.1
     (by decide) (by decide),
   (c7_donate_guards [2] c7wC 2 1 50 none 10
      { base := { c7base with status := CampaignStatus.Draft },
        donation_contract := some 5 } (by decide) rfl).2.2
     (by decide) rfl (by decide) (by decide)⟩

/-- Sequential `donate` calls by one donor for one campaign; a list entry is
(amount, note, ledger timestamp). -/
def donate_all (auths : List Nat) (w : DWorld) (donor campaign_id : Nat) :
    List (Int × Option String × Nat) → Except Err DWorld
  | [] => .ok w
  | x :: rest =>
    match donate auths w donor campaign_id x.1 x.2.1 x.2.2 with
    | .error e => .error e
    | .ok (w', _) => donate_all auths w' donor campaign_id rest

/-- World after a `donate_all` run; the input world if it aborted. -/
def donate_run (auths : List Nat) (w : DWorld) (donor campaign_id : Nat)
    (calls : List (Int × Option String × Nat)) : DWorld :=
  match donate_all auths w donor campaign_id calls with
  | .ok w' => w'
  | .error _ => w

/-- The donation record `donate` builds for one call. -/
def mk_donation (campaign_id donor : Nat) (x : Int × Option String × Nat) : Donation :=
  { campaign_id := campaign_id, donor := donor, amount := x.1,
    timestamp := x.2.2, note := x.2.1 }

lemma donate_success (auths : List Nat) (w : DWorld) (donor campaign_id : Nat)
    (amount : Int) (note : Option String) (now : Nat) (camp : CampaignA)
    (hA : donor ∈ auths) (hpos : 0 < amount)
    (hC : w.campaigns campaign_id = some camp)
    (hreg : camp.donation_contract = some w.self_addr)
    (hst : camp.base.status = CampaignStatus.Active ∨
      camp.base.status = CampaignStatus.Funded) :
    ∃ camp' : CampaignA,
      camp'.donation_contract = camp.donation_contract ∧
      (camp'.base.status = CampaignStatus.Active ∨
        camp'.base.status = CampaignStatus.Funded) ∧
      donate auths w donor campaign_id amount note now =
        .ok ({ self_addr := w.self_addr
               campaigns := fun k =>
                 if k = campaign_id then some camp' else w.campaigns k
               donations := fun c d =>
                 if c = campaign_id ∧ d = donor then
                   w.donations c d ++ [mk_donation campaign_id donor (amount, note, now)]
                 else w.donations c d },
             mk_donation campaign_id donor (amount, note, now)) := by
  obtain ⟨_, hok, _, _, hfund⟩ := add_donation_ok camp.base amount hst
  refine ⟨{ camp with base := apply_op camp.base (COp.add_donation amount) },
    rfl, hfund, ?_⟩
  have h1 : ¬ (donor ∉ auths) := fun hn => hn hA
  have hgt : ¬ (amount ≤ 0) := not_le.mpr hpos
  have hnr : ¬ (camp.donation_contract ≠ some w.self_addr) := fun hn => hn hreg
  have hns : ¬ (camp.base.status ≠ CampaignStatus.Active ∧
      camp.base.status ≠ CampaignStatus.Funded) := by
    rcases hst with h | h <;> simp [h]
  have hAok : add_donationA camp amount =
      .ok { camp with base := apply_op camp.base (COp.add_donation amount) } := by
    unfold add_donationA
    rw [hok]
  simp only [donate, if_neg h1, if_neg hgt, hC, if_neg hnr, if_neg hns, hAok]
  rfl

lemma donate_all_spec (auths : List Nat) (donor campaign_id : Nat)
    (calls : List (Int × Option String × Nat)) :
    ∀ (w : DWorld) (camp : CampaignA),
      donor ∈ auths → (∀ x ∈ calls, 0 < x.1) →
      w.campaigns campaign_id = some camp →
      camp.donation_contract = some w.self_addr →
      (camp.base.status = CampaignStatus.Active ∨
        camp.base.status = CampaignStatus.Funded) →
      ∃ w' : DWorld,
        donate_all auths w donor campaign_id calls = .ok w' ∧
        w'.donations campaign_id donor =
          w.donations campaign_id donor ++ calls.map (mk_donation campaign_id donor) ∧
        (∀ c d : Nat, ¬ (c = campaign_id ∧ d = donor) →
          w'.donations c d = w.donations c d) := by
  induction calls with
  | nil =>
      intro w camp _ _ _ _ _
      exact ⟨w, rfl, by simp, fun _ _ _ => rfl⟩
  | cons x rest ih =>
      intro w camp hA hpos hC hreg hst
      obtain ⟨camp', hdc, hfund, hdon⟩ :=
        donate_success auths w donor campaign_id x.1 x.2.1 x.2.2 camp hA
          (hpos x (List.mem_cons_self x rest)) hC hreg hst
      obtain ⟨w2, hall, hdons, hpres⟩ := ih
        { self_addr := w.self_addr
          campaigns := fun k =>
            if k = campaign_id then some camp' else w.campaigns k
          donations := fun c d =>
            if c = campaign_id ∧ d = donor then
              w.donations c d ++ [mk_donation campaign_id donor (x.1, x.2.1, x.2.2)]
            else w.donations c d }
        camp' hA (fun y hy => hpos y (List.mem_cons_of_mem x hy))
        (by simp) (by rw [hdc]; exact hreg) hfund
      refine ⟨w2, ?_, ?_, ?_⟩
      · simp only [donate_all, hdon]
        exact hall
      · rw [hdons]
        simp [List.append_assoc]
      · intro c d hcd
        rw [hpres c d hcd]
        simp [hcd]

/-- Claim C8: for one donor and one campaign, a sequence of N valid
(positive-amount) `donate` calls all succeed, and `get_donations` then
returns the donor's prior list extended by exactly the N submitted records
in submission order, each with the submitted amount; lists of other
(campaign, donor) pairs — in particular a donor with no donations — are
unchanged. -/
theorem c8_get_donations_roundtrip (auths : List Nat) (w : DWorld)
    (donor campaign_id : Nat) (camp : CampaignA)
    (calls : List (Int × Option String × Nat))
    (hA : donor ∈ auths) (hpos : ∀ x ∈ calls, 0 < x.1)
    (hC : w.campaigns campaign_id = some camp)
    (hreg : camp.donation_contract = some w.self_addr)
    (hst : camp.base.status = CampaignStatus.Active ∨
      camp.base.status = CampaignStatus.Funded) :
    is_ok (donate_all auths w donor campaign_id calls) = true ∧
    get_donations (donate_run auths w donor campaign_id calls) campaign_id donor =
      w.donations campaign_id donor ++ calls.map (mk_donation campaign_id donor) ∧
    (∀ c d : Nat, ¬ (c = campaign_id ∧ d = donor) →
      get_donations (donate_run auths w donor campaign_id calls) c d =
        w.donations c d) := by
  obtain ⟨w', hall, hdons, hpres⟩ :=
    donate_all_spec auths donor campaign_id calls w camp hA hpos hC hreg hst
  have hrun : donate_run auths w donor campaign_id calls = w' := by
    unfold donate_run
    rw [hall]
  refine ⟨?_, ?_, ?_⟩
  · rw [hall]
    rfl
  · rw [get_donations, hrun]
    exact hdons
  · intro c d hcd
    rw [get_donations, hrun]
    exact hpres c d hcd

/-- Fundable campaign base used by the C8 witness world. -/
def c8base : Campaign :=
  { id := 1, title := "t", description := "d", target_amount := 1000,
    current_amount := 0, released_amount := 0, creator := 7,
    status := CampaignStatus.Active, created_at := 0 }

/-- C8 witness world: donation ledger at address 5 registered for the
campaign, no donations recorded yet. -/
def c8w : DWorld :=
  { self_addr := 5
    campaigns := fun k =>
      if k = 1 then some { base := c8base, donation_contract := some 5 } else none
    donations := fun _ _ => [] }

/-- Witness for C8: two sequential donations of 100 and 200 by donor 2 both
succeed; `get_donations` returns exactly those two records in order, and an
uninvolved donor 3 still gets the empty list. -/
theorem c8_get_donations_roundtrip_witness :
    is_ok (donate_all [2] c8w 2 1 [(100, none, 10), (200, none, 11)]) = true ∧
    get_donations (donate_run [2] c8w 2 1 [(100, none, 10), (200, none, 11)]) 1 2 =
      [mk_donation 1 2 (100, none, 10), mk_donation 1 2 (200, none, 11)] ∧
    get_donations (donate_run [2] c8w 2 1 [(100, none, 10), (200, none, 11)]) 1 3 = [] := by
  obtain ⟨h1, h2, h3⟩ := c8_get_donations_roundtrip [2] c8w 2 1
    { base := c8base, donation_contract := some 5 }
    [(100, none, 10), (200, none, 11)]
    (by decide) (by decide) rfl rfl (Or.inl rfl)
  exact ⟨h1, h2, h3 1 3 (by simp)⟩

end GiveHub
